import Mathlib

/-!
Shallow embedding of the CMS content-resolution layer of this repository.

The source consists of a Directus fetcher module (fetchPageData,
fetchPageDataById, getPageIdByPermalink, getPostIdBySlug,
fetchPostByIdAndVersion, fetchPostBySlug, fetchPaginatedPosts,
fetchTotalPostCount) and two Next.js route handlers (the catch-all page
route and the blog-post route).

The Directus store is modelled as lists of pages and posts plus a table of
(id, version) snapshots; the query options the code builds (filter, limit,
page, sort, deep) are embedded as first-class data so that theorems can
speak about the query each function sends, and a separate evaluation
function models the store's semantics for those queries.  A store-side
failure (unreachable store, permission error, ...) is modelled by the
`err` field: when it is set, every request to the store throws that error.
Thrown JavaScript errors are modelled by `Except String`; the `withToken`
wrapper only sets a request header in the source, so the token parameters
are carried but grant no extra visibility in the model.  Field-selection
lists (`fields: [...]`) only project columns and are not modelled.
-/

/-- A blog post row of the `posts` collection.  `published_at` is modelled
as a natural timestamp (larger = newer). -/
structure Post where
  id : String
  title : String
  description : String
  slug : String
  image : Option String
  status : String
  published_at : Nat
  content : String
deriving DecidableEq

/-- The payload of a `block_posts` block (`item` when it is an object):
`collection` models the optional `collection` key checked by
`'collection' in block.item && block.item.collection === 'posts'`,
`limit` the configured page size, `posts` the list the enricher attaches. -/
structure BlockObj where
  id : String
  headline : Option String
  collection : Option String
  limit : Option Nat
  posts : Option (List Post)
deriving DecidableEq

/-- A block's `item`: either a plain string reference (the
`typeof block.item === 'string'` case) or an expanded object. -/
inductive BlockItem where
  | strRef : String → BlockItem
  | obj : BlockObj → BlockItem
deriving DecidableEq

/-- A row of the `pages_blocks` junction: `collection` tags the variant,
`sort` is the ordering key, `hide_block` the visibility flag. -/
structure PageBlock where
  id : String
  collection : String
  sort : Int
  hide_block : Option Bool
  item : Option BlockItem
deriving DecidableEq

/-- A row of the `pages` collection. -/
structure Page where
  id : String
  title : String
  permalink : String
  status : String
  blocks : List PageBlock
deriving DecidableEq

/-- The status value `'published'`. -/
def publishedStr : String := "published"

/-- The collection tag `'block_posts'`. -/
def blockPostsStr : String := "block_posts"

/-- The collection value `'posts'` expected inside a posts block item. -/
def postsStr : String := "posts"

/-- The version sentinel `'main'`. -/
def mainStr : String := "main"

/-- The query-string literal `'true'`. -/
def trueStr : String := "true"

/-- Message of the validation error thrown for a blank `id`. -/
def invalidIdMsg : String := "Invalid id: id must be a non-empty string"

/-- Message of the validation error thrown for a blank `version`. -/
def invalidVersionMsg : String := "Invalid version: version must be a non-empty string"

/-- Message of the validation error thrown for a blank `slug`. -/
def invalidSlugMsg : String := "Invalid slug: slug must be a non-empty string"

/-- Message of the validation error thrown for a blank `permalink`. -/
def invalidPermalinkMsg : String := "Invalid permalink: permalink must be a non-empty string"

/-- Message thrown inside `fetchPageData` when zero rows match. -/
def pageNotFoundMsg : String := "Page not found"

/-- Generic message `fetchPageData`'s catch block re-throws. -/
def failedFetchPageMsg : String := "Failed to fetch page data"

/-- Generic message `fetchPageDataById`'s catch block re-throws. -/
def failedVersionedPageMsg : String := "Failed to fetch versioned page"

/-- Generic message `fetchPostByIdAndVersion`'s catch block re-throws. -/
def failedVersionedPostMsg : String := "Failed to fetch versioned post"

/-- Generic message `fetchPostBySlug`'s catch block re-throws. -/
def failedPostBySlugMsg : String := "Failed to fetch blog post and related posts"

/-- Store-side error Directus raises when `readItem` finds no item
(model-level message; the code never inspects it). -/
def itemMissingMsg : String := "Item not found"

/-- Filter object the code passes on `pages` queries: an optional
`permalink: { _eq: _ }` clause and an optional `status: { _eq: _ }`
clause. -/
structure PageFilter where
  permalink_eq : Option String
  status_eq : Option String
deriving DecidableEq

/-- Filter object the code passes on `posts` queries: optional
`slug: { _eq: _ }`, `slug: { _neq: _ }` and `status: { _eq: _ }` clauses. -/
structure PostFilter where
  slug_eq : Option String
  slug_neq : Option String
  status_eq : Option String
deriving DecidableEq

/-- The `deep` modifier the code attaches to the `blocks` relation:
`_sort: ['sort']` and `_filter: { hide_block: { _neq: true } }`. -/
structure DeepBlocks where
  sortBySortAscending : Bool
  filterHideBlockNeqTrue : Bool
deriving DecidableEq

/-- A `readItems('pages', ...)` query as built by the code. -/
structure PagesQuery where
  filter : PageFilter
  limit : Nat
  deep : Option DeepBlocks
deriving DecidableEq

/-- A `readItems('posts', ...)` query as built by the code:
`sort: ['-published_at']` is recorded as a flag, `page` defaults to 1 in
Directus when absent. -/
structure PostsQuery where
  filter : PostFilter
  sortByPublishedAtDesc : Bool
  limit : Option Nat
  page : Nat
deriving DecidableEq

/-- Store evaluation of a page filter. -/
def matchesPageFilter (f : PageFilter) (p : Page) : Bool :=
  (match f.permalink_eq with
    | none => true
    | some v => p.permalink == v) &&
  (match f.status_eq with
    | none => true
    | some v => p.status == v)

/-- Store evaluation of a post filter. -/
def matchesPostFilter (f : PostFilter) (p : Post) : Bool :=
  (match f.slug_eq with
    | none => true
    | some v => p.slug == v) &&
  (match f.slug_neq with
    | none => true
    | some v => !(p.slug == v)) &&
  (match f.status_eq with
    | none => true
    | some v => p.status == v)

/-- Insert into a list that is sorted for the Boolean order `le`. -/
def insertLe {α : Type} (le : α → α → Bool) (x : α) : List α → List α
  | [] => [x]
  | y :: ys => if le x y then x :: y :: ys else y :: insertLe le x ys

/-- Insertion sort for the Boolean order `le`; models the store's `sort`
handling. -/
def sortLe {α : Type} (le : α → α → Bool) : List α → List α
  | [] => []
  | x :: xs => insertLe le x (sortLe le xs)

/-- Block order used by `deep.blocks._sort = ['sort']`: ascending `sort`. -/
def blockLe (a b : PageBlock) : Bool :=
  decide (a.sort ≤ b.sort)

/-- Post order used by `sort: ['-published_at']`: descending timestamp. -/
def postDescLe (a b : Post) : Bool :=
  decide (b.published_at ≤ a.published_at)

/-- The `deep._filter` step: blocks with `hide_block = true` excluded. -/
def visibleBlocks (d : DeepBlocks) (bs : List PageBlock) : List PageBlock :=
  if d.filterHideBlockNeqTrue then bs.filter (fun b => !(b.hide_block == some true)) else bs

/-- Store-side application of the `deep` modifier on the `blocks`
relation: hidden blocks are dropped and the rest sorted by `sort`
ascending, inside the store, before the page is returned. -/
def applyDeep (d : DeepBlocks) (bs : List PageBlock) : List PageBlock :=
  if d.sortBySortAscending then sortLe blockLe (visibleBlocks d bs) else visibleBlocks d bs

/-- Rows matching a `pages` query after filter and `limit`. -/
def pagesHits (q : PagesQuery) (pages : List Page) : List Page :=
  (pages.filter (fun p => matchesPageFilter q.filter p)).take q.limit

/-- Store evaluation of a `pages` query: filter, `limit`, then the `deep`
modifier on each returned page's blocks. -/
def evalPagesQuery (q : PagesQuery) (pages : List Page) : List Page :=
  match q.deep with
  | none => pagesHits q pages
  | some d => (pagesHits q pages).map (fun p => { p with blocks := applyDeep d p.blocks })

/-- Rows matching a `posts` query's filter. -/
def postsHits (q : PostsQuery) (posts : List Post) : List Post :=
  posts.filter (fun p => matchesPostFilter q.filter p)

/-- Filter results after the optional `-published_at` sort. -/
def postsSorted (q : PostsQuery) (posts : List Post) : List Post :=
  if q.sortByPublishedAtDesc then sortLe postDescLe (postsHits q posts) else postsHits q posts

/-- Store evaluation of a `posts` query: filter, optional sort, then
pagination (`page` is 1-based, offset `(page-1)*limit`). -/
def evalPostsQuery (q : PostsQuery) (posts : List Post) : List Post :=
  match q.limit with
  | none => postsSorted q posts
  | some l => ((postsSorted q posts).drop ((q.page - 1) * l)).take l

/-- The remote Directus store: collection contents, the version-snapshot
tables behind `readItem(..., { version })`, and an optional error.  When
`err = some e`, every request throws `e` (unreachable store, permission
failure, malformed response, ...). -/
structure Store where
  pages : List Page
  posts : List Post
  pageVersions : List (String × String × Page)
  postVersions : List (String × String × Post)
  err : Option String
deriving DecidableEq

/-- `directus.request(readItems('pages', q))`. -/
def Store.readPages (s : Store) (q : PagesQuery) : Except String (List Page) :=
  match s.err with
  | some e => Except.error e
  | none => Except.ok (evalPagesQuery q s.pages)

/-- `directus.request(readItems('posts', q))`. -/
def Store.readPosts (s : Store) (q : PostsQuery) : Except String (List Post) :=
  match s.err with
  | some e => Except.error e
  | none => Except.ok (evalPostsQuery q s.posts)

/-- Version snapshot lookup behind `readItem('pages', id, { version })`. -/
def Store.findPageVersion (s : Store) (id version : String) : Option Page :=
  match s.pageVersions.find? (fun t => t.1 == id && t.2.1 == version) with
  | none => none
  | some t => some t.2.2

/-- Version snapshot lookup behind `readItem('posts', id, { version })`. -/
def Store.findPostVersion (s : Store) (id version : String) : Option Post :=
  match s.postVersions.find? (fun t => t.1 == id && t.2.1 == version) with
  | none => none
  | some t => some t.2.2

/-- `directus.request(readItem('pages', id, { version, deep }))`: Directus
throws when the item does not exist, and applies the `deep` modifier to
the returned page's blocks. -/
def Store.readPageVersion (s : Store) (id version : String)
    (deep : Option DeepBlocks) : Except String Page :=
  match s.err with
  | some e => Except.error e
  | none =>
    match s.findPageVersion id version with
    | none => Except.error itemMissingMsg
    | some p =>
      match deep with
      | none => Except.ok p
      | some d => Except.ok { p with blocks := applyDeep d p.blocks }

/-- `directus.request(readItem('posts', id, { version }))`. -/
def Store.readPostVersion (s : Store) (id version : String) :
    Except String Post :=
  match s.err with
  | some e => Except.error e
  | none =>
    match s.findPostVersion id version with
    | none => Except.error itemMissingMsg
    | some p => Except.ok p

/-- `directus.request(aggregate('posts', { count, filter }))`, reduced to
the count the code extracts from the single response row. -/
def Store.aggregateCountPosts (s : Store) (f : PostFilter) :
    Except String Nat :=
  match s.err with
  | some e => Except.error e
  | none => Except.ok ((s.posts.filter (fun p => matchesPostFilter f p)).length)

/-- JavaScript truthiness of an optional string query/function parameter:
`undefined` and the empty string are falsy. -/
def truthy : Option String → Bool
  | none => false
  | some s => !(s == "")

/-- JavaScript truthiness of an optional boolean parameter. -/
def truthyB : Option Bool → Bool
  | none => false
  | some b => b

/-- JavaScript falsiness `!v` of an optional string (`undefined` or `''`). -/
def strFalsy : Option String → Bool
  | none => true
  | some s => s == ""

/-- JavaScript `String.prototype.trim`, modelled over the character list
so that it reduces inside the kernel: leading and trailing whitespace
characters removed. -/
def jsTrim (s : String) : String :=
  String.mk (((s.data.dropWhile Char.isWhitespace).reverse.dropWhile Char.isWhitespace).reverse)

/-- The check `!x || x.trim() === ''` on a required string argument. -/
def blankStr (x : String) : Bool :=
  x == "" || jsTrim x == ""

/-- The check `!v || v.trim() === ''` on an optional string argument. -/
def blankOptStr (v : Option String) : Bool :=
  strFalsy v || jsTrim (v.getD "") == ""

/-- The `token || undefined` normalization both route handlers apply. -/
def orUndef : Option String → Option String
  | none => none
  | some s => if s == "" then none else some s

/-- The `deep` modifier both page fetchers send:
`{ blocks: { _sort: ['sort'], _filter: { hide_block: { _neq: true } } } }`. -/
def deepStd : DeepBlocks :=
  { sortBySortAscending := true, filterHideBlockNeqTrue := true }

/-- The `readItems('pages', ...)` query `fetchPageData` builds: permalink
equality always; the `status = 'published'` clause unless
`preview && token`; `limit: 1`; the standard `deep` modifier. -/
def pagesQueryOf (permalink : String) (token : Option String)
    (preview : Option Bool) : PagesQuery :=
  { filter :=
      if truthyB preview && truthy token then
        { permalink_eq := some permalink, status_eq := none }
      else
        { permalink_eq := some permalink, status_eq := some publishedStr },
    limit := 1,
    deep := some deepStd }

/-- The secondary `readItems('posts', ...)` query the block enricher
issues: published only, newest first, the block's limit and the supplied
page number. -/
def blockPostsQuery (limit : Nat) (pg : Nat) : PostsQuery :=
  { filter := { slug_eq := none, slug_neq := none, status_eq := some publishedStr },
    sortByPublishedAtDesc := true,
    limit := some limit,
    page := pg }

/-- The guard of the enrichment branch in `fetchPageData`:
`block.collection === 'block_posts' && block.item &&
typeof block.item !== 'string' && 'collection' in block.item &&
block.item.collection === 'posts'`. -/
def isPostsBlock (b : PageBlock) : Bool :=
  match b.item with
  | some (BlockItem.obj o) => b.collection == blockPostsStr && o.collection == some postsStr
  | _ => false

/-- Body of the enrichment loop of `fetchPageData` for one block: on the
posts variant, fetch published posts with the block's limit (default 6)
and attach them to the block's item; otherwise leave the block unchanged.
A store failure propagates. -/
def enrichBlock (s : Store) (pg : Nat) (b : PageBlock) : Except String PageBlock :=
  match b.item with
  | some (BlockItem.obj o) =>
    if b.collection == blockPostsStr && o.collection == some postsStr then
      match s.readPosts (blockPostsQuery (o.limit.getD 6) pg) with
      | Except.error e => Except.error e
      | Except.ok posts =>
        Except.ok { b with item := some (BlockItem.obj { o with posts := some posts }) }
    else Except.ok b
  | _ => Except.ok b

/-- The enrichment loop of `fetchPageData` over the page's blocks. -/
def enrichBlocks (s : Store) (pg : Nat) : List PageBlock → Except String (List PageBlock)
  | [] => Except.ok []
  | b :: bs =>
    match enrichBlock s pg b with
    | Except.error e => Except.error e
    | Except.ok b2 =>
      match enrichBlocks s pg bs with
      | Except.error e => Except.error e
      | Except.ok bs2 => Except.ok (b2 :: bs2)

/-- The `try` block of `fetchPageData`: run the pages query, throw
`'Page not found'` on zero rows, then enrich the first page's blocks. -/
def fetchPageDataTry (s : Store) (permalink : String) (postPage : Nat)
    (token : Option String) (preview : Option Bool) : Except String Page :=
  match s.readPages (pagesQueryOf permalink token preview) with
  | Except.error e => Except.error e
  | Except.ok pageData =>
    match pageData with
    | [] => Except.error pageNotFoundMsg
    | page :: _ =>
      match enrichBlocks s postPage page.blocks with
      | Except.error e => Except.error e
      | Except.ok bs => Except.ok { page with blocks := bs }

/-- `fetchPageData`: the `try` body with its catch block, which re-throws
any error as the generic `'Failed to fetch page data'`. -/
def fetchPageData (s : Store) (permalink : String) (postPage : Nat)
    (token : Option String) (preview : Option Bool) : Except String Page :=
  match fetchPageDataTry s permalink postPage token preview with
  | Except.ok p => Except.ok p
  | Except.error _ => Except.error failedFetchPageMsg

/-- `fetchPageDataById`: validate `id` and `version` synchronously, then
`readItem('pages', id, { version, deep })` with the catch block mapping
any store error to `'Failed to fetch versioned page'`. -/
def fetchPageDataById (s : Store) (id : String) (version : Option String)
    (token : Option String) : Except String Page :=
  if blankStr id then Except.error invalidIdMsg
  else if blankOptStr version then Except.error invalidVersionMsg
  else
    match s.readPageVersion id (version.getD "") (some deepStd) with
    | Except.ok p => Except.ok p
    | Except.error _ => Except.error failedVersionedPageMsg

/-- The id-lookup `readItems('pages', ...)` query of
`getPageIdByPermalink`: permalink equality only, `limit: 1`, no `deep`. -/
def idLookupPagesQuery (permalink : String) : PagesQuery :=
  { filter := { permalink_eq := some permalink, status_eq := none },
    limit := 1,
    deep := none }

/-- The id-lookup `readItems('posts', ...)` query of `getPostIdBySlug`:
slug equality only, `limit: 1`. -/
def idLookupPostsQuery (slug : String) : PostsQuery :=
  { filter := { slug_eq := some slug, slug_neq := none, status_eq := none },
    sortByPublishedAtDesc := false,
    limit := some 1,
    page := 1 }

/-- `getPageIdByPermalink`: validate the permalink, then return the first
matching page's id, `null` on zero rows, and `null` (not a failure) when
the store request throws. -/
def getPageIdByPermalink (s : Store) (permalink : String)
    (token : Option String) : Except String (Option String) :=
  if blankStr permalink then Except.error invalidPermalinkMsg
  else
    match s.readPages (idLookupPagesQuery permalink) with
    | Except.error _ => Except.ok none
    | Except.ok pageData =>
      match pageData with
      | [] => Except.ok none
      | p :: _ => Except.ok (some p.id)

/-- `getPostIdBySlug`: validate the slug, then return the first matching
post's id, `null` on zero rows, and `null` (not a failure) when the store
request throws. -/
def getPostIdBySlug (s : Store) (slug : String)
    (token : Option String) : Except String (Option String) :=
  if blankStr slug then Except.error invalidSlugMsg
  else
    match s.readPosts (idLookupPostsQuery slug) with
    | Except.error _ => Except.ok none
    | Except.ok postData =>
      match postData with
      | [] => Except.ok none
      | p :: _ => Except.ok (some p.id)

/-- The related-posts query shared by `fetchPostByIdAndVersion` and
`fetchPostBySlug`: `slug != target`, published only, `limit: 2`. -/
def relatedPostsQuery (slug : String) : PostsQuery :=
  { filter := { slug_eq := none, slug_neq := some slug, status_eq := some publishedStr },
    sortByPublishedAtDesc := false,
    limit := some 2,
    page := 1 }

/-- `fetchPostByIdAndVersion`: validate `id`, `version` and `slug`
synchronously, then fetch the versioned post and the related posts (a
`Promise.all`; a failure of either request reaches the catch block, which
re-throws `'Failed to fetch versioned post'`). -/
def fetchPostByIdAndVersion (s : Store) (id version slug : String)
    (token : Option String) : Except String (Post × List Post) :=
  if blankStr id then Except.error invalidIdMsg
  else if blankStr version then Except.error invalidVersionMsg
  else if blankStr slug then Except.error invalidSlugMsg
  else
    match s.readPostVersion id version with
    | Except.error _ => Except.error failedVersionedPostMsg
    | Except.ok post =>
      match s.readPosts (relatedPostsQuery slug) with
      | Except.error _ => Except.error failedVersionedPostMsg
      | Except.ok related => Except.ok (post, related)

/-- The primary-post filter of `fetchPostBySlug`: slug equality, plus the
`status = 'published'` clause unless `token || draft`. -/
def postBySlugFilter (slug : String) (draft : Option Bool)
    (token : Option String) : PostFilter :=
  if truthy token || truthyB draft then
    { slug_eq := some slug, slug_neq := none, status_eq := none }
  else
    { slug_eq := some slug, slug_neq := none, status_eq := some publishedStr }

/-- The primary `readItems('posts', ...)` query of `fetchPostBySlug`. -/
def postBySlugQuery (slug : String) (draft : Option Bool)
    (token : Option String) : PostsQuery :=
  { filter := postBySlugFilter slug draft token,
    sortByPublishedAtDesc := false,
    limit := some 1,
    page := 1 }

/-- `fetchPostBySlug`: run the primary and the related query (a
`Promise.all`), return the first primary hit or `null` plus the related
list; the catch block re-throws any error as
`'Failed to fetch blog post and related posts'`. -/
def fetchPostBySlug (s : Store) (slug : String) (draft : Option Bool)
    (token : Option String) : Except String (Option Post × List Post) :=
  match s.readPosts (postBySlugQuery slug draft token) with
  | Except.error _ => Except.error failedPostBySlugMsg
  | Except.ok posts =>
    match s.readPosts (relatedPostsQuery slug) with
    | Except.error _ => Except.error failedPostBySlugMsg
    | Except.ok related => Except.ok (posts.head?, related)

/-- The query of `fetchPaginatedPosts`: published only, newest first,
caller-supplied limit and page. -/
def paginatedPostsQuery (limit : Nat) (pg : Nat) : PostsQuery :=
  { filter := { slug_eq := none, slug_neq := none, status_eq := some publishedStr },
    sortByPublishedAtDesc := true,
    limit := some limit,
    page := pg }

/-- `fetchPaginatedPosts`. -/
def fetchPaginatedPosts (s : Store) (limit : Nat) (pg : Nat) :
    Except String (List Post) :=
  match s.readPosts (paginatedPostsQuery limit pg) with
  | Except.error _ => Except.error "Failed to fetch paginated posts"
  | Except.ok posts => Except.ok posts

/-- `fetchTotalPostCount`: aggregate count of published posts; the catch
block returns `0` instead of propagating any store failure. -/
def fetchTotalPostCount (s : Store) : Nat :=
  match s.aggregateCountPosts
      { slug_eq := none, slug_neq := none, status_eq := some publishedStr } with
  | Except.error _ => 0
  | Except.ok n => n

/-- The draft flag `BlogPostPage` derives from its query parameters:
`(preview === 'true' && !!token) || (!!version && version !== 'published')
|| !!token`. -/
def isDraft (preview version token : Option String) : Bool :=
  (preview == some trueStr && truthy token) ||
  (truthy version && !(version == some publishedStr)) ||
  truthy token

/-- The `fixedVersion` of `BlogPostPage`:
`version != 'main' ? version : undefined` on an optional string. -/
def fixedVersionOf (version : Option String) : Option String :=
  if version == some mainStr then none else version

/-- The `fixedVersion` of the catch-all page route, where `version` has
already been defaulted to the empty string. -/
def pageFixedVersionOf (version : String) : Option String :=
  if version == mainStr then none else some version

/-- What the blog-post route renders: the 404 marker or the post with its
related posts. -/
inductive BlogOutcome where
  | notFoundPage : BlogOutcome
  | rendered : Post → List Post → BlogOutcome
deriving DecidableEq

/-- What the catch-all page route renders: `notFound()` or the page's
blocks with its id. -/
inductive PageOutcome where
  | notFoundPage : PageOutcome
  | rendered : List PageBlock → String → PageOutcome
deriving DecidableEq

/-- Tail of `BlogPostPage` after the optional id lookup: the
`if (postId && fixedVersion)` branch between the versioned fetch and
`fetchPostBySlug`, followed by the `if (!post)` check. -/
def blogFinish (s : Store) (slug : String) (postId fixedVersion : Option String)
    (isDraftV : Bool) (token : Option String) : Except String BlogOutcome :=
  if truthy postId && truthy fixedVersion then
    match fetchPostByIdAndVersion s (postId.getD "") (fixedVersion.getD "") slug (orUndef token) with
    | Except.error e => Except.error e
    | Except.ok (p, rel) => Except.ok (BlogOutcome.rendered p rel)
  else
    match fetchPostBySlug s slug (some isDraftV) token with
    | Except.error e => Except.error e
    | Except.ok (none, _) => Except.ok BlogOutcome.notFoundPage
    | Except.ok (some p, rel) => Except.ok (BlogOutcome.rendered p rel)

/-- The blog-post route handler: derive `isDraft` and `fixedVersion`,
look the id up by slug when a version is requested without an id, then
resolve; any thrown error is caught and rendered as the 404 marker. -/
def BlogPostPage (s : Store) (slug : String)
    (id version preview token : Option String) : BlogOutcome :=
  let isDraftV := isDraft preview version token
  let fixedVersion := fixedVersionOf version
  let res : Except String BlogOutcome :=
    if truthy fixedVersion && !(truthy id) then
      match getPostIdBySlug s slug (orUndef token) with
      | Except.error e => Except.error e
      | Except.ok none => Except.ok BlogOutcome.notFoundPage
      | Except.ok (some pid) => blogFinish s slug (some pid) fixedVersion isDraftV token
    else
      blogFinish s slug id fixedVersion isDraftV token
  match res with
  | Except.ok o => o
  | Except.error _ => BlogOutcome.notFoundPage

/-- The non-versioned path of the blog-post route with the draft flag
forced on: `fetchPostBySlug(slug, { draft: true, token })` mapped to the
rendered or 404 outcome.  Used to characterize what a `version=main`
request resolves to. -/
def blogPostViaSlugDraft (s : Store) (slug : String) (token : Option String) : BlogOutcome :=
  match fetchPostBySlug s slug (some true) token with
  | Except.error _ => BlogOutcome.notFoundPage
  | Except.ok (none, _) => BlogOutcome.notFoundPage
  | Except.ok (some p, rel) => BlogOutcome.rendered p rel

/-- The permalink normalization of the catch-all route:
`('/' + segments.join('/')).replace(/\/$/, '') || '/'`. -/
def resolvedPermalink (segs : List String) : String :=
  let joined := String.append "/" (String.intercalate "/" segs)
  let stripped := if joined.endsWith "/" then joined.dropRight 1 else joined
  if stripped == "" then "/" else stripped

/-- The catch-all page route handler: normalize the permalink, default the
query parameters, branch between the id+version, lookup-then-version and
plain permalink paths, and map any thrown error or missing page to
`notFound()`. -/
def PageHandler (s : Store) (segs : List String)
    (idQ versionQ previewQ tokenQ : Option String) : PageOutcome :=
  let permalink := resolvedPermalink segs
  let id := idQ.getD ""
  let version := versionQ.getD ""
  let preview := previewQ == some trueStr
  let token := tokenQ.getD ""
  let fv := pageFixedVersionOf version
  let tokOpt := if token == "" then none else some token
  let res : Except String PageOutcome :=
    if truthy fv && !(id == "") then
      match fetchPageDataById s id fv tokOpt with
      | Except.error e => Except.error e
      | Except.ok p => Except.ok (PageOutcome.rendered p.blocks p.id)
    else if truthy fv then
      match getPageIdByPermalink s permalink tokOpt with
      | Except.error e => Except.error e
      | Except.ok none => Except.ok PageOutcome.notFoundPage
      | Except.ok (some pid) =>
        match fetchPageDataById s pid fv tokOpt with
        | Except.error e => Except.error e
        | Except.ok p => Except.ok (PageOutcome.rendered p.blocks p.id)
    else
      match fetchPageData s permalink 1 tokOpt (some preview) with
      | Except.error e => Except.error e
      | Except.ok p => Except.ok (PageOutcome.rendered p.blocks p.id)
  match res with
  | Except.ok o => o
  | Except.error _ => PageOutcome.notFoundPage

/-- A store holding nothing, with the store reachable. -/
def emptyStore : Store := ⟨[], [], [], [], none⟩

/-- A store whose every request throws (e.g. unreachable backend). -/
def downStore : Store := ⟨[], [], [], [], some ("ECONNREFUSED")⟩

/-- A draft-only page used to exercise the published filter. -/
def pageDraft1 : Page := ⟨"pg1", "Draft page", "/a", "draft", []⟩

/-- Store for the permalink-without-published-page scenario. -/
def storeC1 : Store := ⟨[pageDraft1], [], [], [], none⟩

/-- Published post, newest. -/
def post3a : Post := ⟨"po1", "A", "da", "a", none, "published", 30, "ca"⟩

/-- Published post, older. -/
def post3b : Post := ⟨"po2", "B", "db", "b", none, "published", 20, "cb"⟩

/-- Draft post that the enricher's query must exclude. -/
def post3c : Post := ⟨"po3", "C", "dc", "c", none, "draft", 40, "cc"⟩

/-- Store for the block-enricher scenario. -/
def storeC3 : Store := ⟨[], [post3a, post3b, post3c], [], [], none⟩

/-- Item payload of a posts block with `limit = 1`. -/
def blockObj3 : BlockObj := ⟨"bo1", none, some postsStr, some 1, none⟩

/-- A `block_posts` block carrying `blockObj3`. -/
def block3 : PageBlock := ⟨"bl1", blockPostsStr, 0, none, some (BlockItem.obj blockObj3)⟩

/-- A non-posts block the enricher must leave untouched. -/
def blockOther3 : PageBlock := ⟨"bl2", "block_hero", 1, none, some (BlockItem.strRef ("x"))⟩

/-- The post of slug `abc` in the `resolvePostBySlug` scenario. -/
def postAbc : Post := ⟨"p1", "T1", "d1", "abc", none, "published", 40, "c1"⟩

/-- First other published post. -/
def postB4 : Post := ⟨"p2", "T2", "d2", "b2", none, "published", 30, "c2"⟩

/-- Second other published post. -/
def postC4v : Post := ⟨"p3", "T3", "d3", "b3", none, "published", 20, "c3"⟩

/-- Third other published post. -/
def postD4 : Post := ⟨"p4", "T4", "d4", "b4", none, "published", 10, "c4"⟩

/-- Store with one published post of slug `abc` and three other published
posts. -/
def storeC4 : Store := ⟨[], [postAbc, postB4, postC4v, postD4], [], [], none⟩

/-- Visible block with `sort = 2`. -/
def block6a : PageBlock := ⟨"b2", "block_richtext", 2, some false, none⟩

/-- Hidden block with `sort = 1`. -/
def block6b : PageBlock := ⟨"b1", "block_richtext", 1, some true, none⟩

/-- Visible block with `sort = 0`. -/
def block6c : PageBlock := ⟨"b0", "block_richtext", 0, some false, none⟩

/-- Page whose stored block order is `[sort 2, sort 1 hidden, sort 0]`. -/
def page6 : Page := ⟨"pg6", "X", "/x", "published", [block6a, block6b, block6c]⟩

/-- Store for the deep sort/filter scenario, with the same page also
available as the version snapshot `(pg6, draftv)`. -/
def storeC6 : Store := ⟨[page6], [], [("pg6", "draftv", page6)], [], none⟩

/-- A draft post visible only when the publish filter is skipped. -/
def post7 : Post := ⟨"p7", "T7", "d7", "s7", none, "draft", 10, "c7"⟩

/-- Store for the `version=main` divergence scenario. -/
def storeC7 : Store := ⟨[], [post7], [], [], none⟩

/-- A draft page whose id must still be returned by the id lookup. -/
def page10 : Page := ⟨"pgid10", "P", "/hidden", "draft", []⟩

/-- A draft post whose id must still be returned by the id lookup. -/
def post10 : Post := ⟨"poid10", "T", "d", "sl10", none, "draft", 5, "c"⟩

/-- Store for the status-blind id-lookup scenario. -/
def storeC10 : Store := ⟨[page10], [post10], [], [], none⟩

/-- The permalink of `pageDraft1`. -/
def permalinkA : String := "/a"

/-- The permalink of `page6`. -/
def permalinkX : String := "/x"

/-- The id of `page6`. -/
def pgSixId : String := "pg6"

/-- The version name under which `page6` is snapshotted in `storeC6`. -/
def draftvStr : String := "draftv"

/-- The slug of `postAbc`. -/
def abcSlug : String := "abc"

/-- The slug of the draft post `post7`. -/
def slugS7 : String := "s7"

/-- The permalink of the draft page `page10`. -/
def permalinkHidden : String := "/hidden"

/-- The slug of the draft post `post10`. -/
def slug10 : String := "sl10"

/-- A non-blank id used to exercise the validation order. -/
def strId1 : String := "id1"

/-- A non-blank version used to exercise the validation order. -/
def strV1 : String := "v1"

/-- The empty string. -/
def strEmpty : String := ""

theorem mem_insertLe {α : Type} (le : α → α → Bool) (x a : α) (l : List α) :
    a ∈ insertLe le x l ↔ a = x ∨ a ∈ l := by
  induction l with
  | nil => simp [insertLe]
  | cons y ys ih =>
    by_cases h : le x y = true
    · simp [insertLe, h, List.mem_cons]
    · simp [insertLe, h, List.mem_cons, ih]
      tauto

theorem mem_sortLe {α : Type} (le : α → α → Bool) (a : α) (l : List α) :
    a ∈ sortLe le l ↔ a ∈ l := by
  induction l with
  | nil => simp [sortLe]
  | cons y ys ih => simp [sortLe, mem_insertLe, ih, List.mem_cons]

theorem sorted_insertLe {α : Type} (le : α → α → Bool)
    (htot : ∀ a b, le a b = true ∨ le b a = true)
    (htrans : ∀ a b c, le a b = true → le b c = true → le a c = true)
    (x : α) (l : List α) (h : List.Pairwise (fun a b => le a b = true) l) :
    List.Pairwise (fun a b => le a b = true) (insertLe le x l) := by
  induction l with
  | nil => simp [insertLe]
  | cons y ys ih =>
    rcases List.pairwise_cons.mp h with ⟨hy, hys⟩
    by_cases hxy : le x y = true
    · simp only [insertLe, hxy, if_pos]
      refine List.pairwise_cons.mpr ⟨?_, h⟩
      intro b hb
      rcases List.mem_cons.mp hb with hb | hb
      · exact hb ▸ hxy
      · exact htrans x y b hxy (hy b hb)
    · simp only [insertLe, hxy, if_neg, Bool.false_eq_true]
      refine List.pairwise_cons.mpr ⟨?_, ih hys⟩
      intro b hb
      rcases (mem_insertLe le x b ys).mp hb with hb | hb
      · rcases htot x y with hc | hc
        · exact absurd hc hxy
        · exact hb ▸ hc
      · exact hy b hb

theorem sorted_sortLe {α : Type} (le : α → α → Bool)
    (htot : ∀ a b, le a b = true ∨ le b a = true)
    (htrans : ∀ a b c, le a b = true → le b c = true → le a c = true)
    (l : List α) :
    List.Pairwise (fun a b => le a b = true) (sortLe le l) := by
  induction l with
  | nil => simp [sortLe]
  | cons y ys ih => exact sorted_insertLe le htot htrans y (sortLe le ys) ih

theorem filter_eq_nil_of_false {α : Type} (f : α → Bool) (l : List α)
    (h : ∀ x ∈ l, f x = false) : l.filter f = [] := by
  induction l with
  | nil => rfl
  | cons a t ih =>
    have ha := h a (List.mem_cons_self a t)
    simp [List.filter_cons, ha, ih (fun x hx => h x (List.mem_cons_of_mem a hx))]

theorem find?_eq_head?_filter {α : Type} (f : α → Bool) (l : List α) :
    l.find? f = (l.filter f).head? := by
  induction l with
  | nil => rfl
  | cons a t ih =>
    cases ha : f a with
    | true => rw [List.find?_cons_of_pos _ ha, List.filter_cons_of_pos ha, List.head?_cons]
    | false =>
      rw [List.find?_cons_of_neg, List.filter_cons_of_neg, ih]
      · simp [ha]
      · simp [ha]

theorem find?_congr_fun {α : Type} (f g : α → Bool) (l : List α)
    (h : ∀ x, f x = g x) : l.find? f = l.find? g := by
  induction l with
  | nil => rfl
  | cons a t ih => simp [List.find?_cons, h a, ih]

theorem matchesPageFilter_both_iff (pl st : String) (p : Page) :
    matchesPageFilter ⟨some pl, some st⟩ p = true ↔ (p.permalink = pl ∧ p.status = st) := by
  simp [matchesPageFilter]

theorem blankStr_of_trim (x : String) (h : jsTrim x = "") : blankStr x = true := by
  simp [blankStr, h]

theorem blankStr_eq_false_of (x : String) (h : ¬ jsTrim x = "") : blankStr x = false := by
  have hx : (x == "") = false := by
    cases he : x == ""
    · rfl
    · exact absurd (by rw [eq_of_beq he]; decide) h
  have ht : (jsTrim x == "") = false := by
    cases he : jsTrim x == ""
    · rfl
    · exact absurd (eq_of_beq he) h
  simp [blankStr, hx, ht]

theorem blankOptStr_some_eq_false (v : String) (h : ¬ jsTrim v = "") :
    blankOptStr (some v) = false := by
  have hx : (v == "") = false := by
    cases he : v == ""
    · rfl
    · exact absurd (by rw [eq_of_beq he]; decide) h
  have ht : (jsTrim v == "") = false := by
    cases he : jsTrim v == ""
    · rfl
    · exact absurd (eq_of_beq he) h
  simp [blankOptStr, strFalsy, hx, ht]

theorem blankOptStr_of (v : Option String)
    (h : v = none ∨ ∃ x, v = some x ∧ jsTrim x = "") : blankOptStr v = true := by
  rcases h with h | ⟨x, hx, ht⟩
  · simp [h, blankOptStr, strFalsy]
  · simp [hx, blankOptStr, strFalsy, ht]

theorem postDescLe_total (a b : Post) : postDescLe a b = true ∨ postDescLe b a = true := by
  unfold postDescLe
  rcases Nat.le_total b.published_at a.published_at with hle | hle
  · exact Or.inl (by simpa using hle)
  · exact Or.inr (by simpa using hle)

theorem postDescLe_trans (a b c : Post) (hab : postDescLe a b = true)
    (hbc : postDescLe b c = true) : postDescLe a c = true := by
  simp only [postDescLe, decide_eq_true_eq] at hab hbc ⊢
  exact Nat.le_trans hbc hab

theorem blockLe_total (a b : PageBlock) : blockLe a b = true ∨ blockLe b a = true := by
  unfold blockLe
  rcases Int.le_total a.sort b.sort with hle | hle
  · exact Or.inl (by simpa using hle)
  · exact Or.inr (by simpa using hle)

theorem blockLe_trans (a b c : PageBlock) (hab : blockLe a b = true)
    (hbc : blockLe b c = true) : blockLe a c = true := by
  simp only [blockLe, decide_eq_true_eq] at hab hbc ⊢
  exact Int.le_trans hab hbc

theorem mem_evalPostsQuery (q : PostsQuery) (posts : List Post) (p : Post)
    (h : p ∈ evalPostsQuery q posts) :
    p ∈ posts ∧ matchesPostFilter q.filter p = true := by
  have hs : p ∈ postsSorted q posts := by
    unfold evalPostsQuery at h
    split at h
    · exact h
    · exact List.drop_subset _ _ (List.take_subset _ _ h)
  have hh : p ∈ postsHits q posts := by
    unfold postsSorted at hs
    split at hs
    · exact (mem_sortLe _ _ _).mp hs
    · exact hs
  unfold postsHits at hh
  exact ⟨(List.mem_filter.mp hh).1, (List.mem_filter.mp hh).2⟩

theorem length_evalPostsQuery_le (q : PostsQuery) (posts : List Post) (l : Nat)
    (h : q.limit = some l) : (evalPostsQuery q posts).length ≤ l := by
  unfold evalPostsQuery
  rw [h]
  exact List.length_take_le _ _

theorem sorted_evalPostsQuery (q : PostsQuery) (posts : List Post)
    (h : q.sortByPublishedAtDesc = true) :
    List.Pairwise (fun a b => b.published_at ≤ a.published_at) (evalPostsQuery q posts) := by
  have hsor : List.Pairwise (fun a b => postDescLe a b = true) (postsSorted q posts) := by
    unfold postsSorted
    rw [h]
    exact sorted_sortLe postDescLe postDescLe_total postDescLe_trans _
  have h2 : List.Pairwise (fun a b : Post => b.published_at ≤ a.published_at)
      (postsSorted q posts) :=
    hsor.imp (fun hab => by simpa [postDescLe] using hab)
  unfold evalPostsQuery
  split
  · exact h2
  · exact List.Pairwise.sublist ((List.take_sublist _ _).trans (List.drop_sublist _ _)) h2

theorem sorted_applyDeep_std (bs : List PageBlock) :
    List.Pairwise (fun a b => a.sort ≤ b.sort) (applyDeep deepStd bs) := by
  have hsor : List.Pairwise (fun a b => blockLe a b = true)
      (sortLe blockLe (visibleBlocks deepStd bs)) :=
    sorted_sortLe blockLe blockLe_total blockLe_trans _
  have h2 : List.Pairwise (fun a b : PageBlock => a.sort ≤ b.sort)
      (sortLe blockLe (visibleBlocks deepStd bs)) :=
    hsor.imp (fun hab => by simpa [blockLe] using hab)
  exact h2

theorem not_hidden_applyDeep_std (bs : List PageBlock) (b : PageBlock)
    (h : b ∈ applyDeep deepStd bs) : ¬ b.hide_block = some true := by
  have hv : b ∈ visibleBlocks deepStd bs := by
    unfold applyDeep at h
    exact (mem_sortLe _ _ _).mp h
  have hm : b ∈ bs.filter (fun c => !(c.hide_block == some true)) := hv
  have := (List.mem_filter.mp hm).2
  simpa using this

theorem fetchPageDataTry_notfound (s : Store) (permalink : String) (pg : Nat)
    (token : Option String) (preview : Option Bool)
    (h0 : s.err = none)
    (h : ∀ p ∈ s.pages, matchesPageFilter (pagesQueryOf permalink token preview).filter p = false) :
    fetchPageDataTry s permalink pg token preview = Except.error pageNotFoundMsg := by
  have hf : s.pages.filter
      (fun p => matchesPageFilter (pagesQueryOf permalink token preview).filter p) = [] :=
    filter_eq_nil_of_false _ _ h
  simp [fetchPageDataTry, Store.readPages, h0, evalPagesQuery, pagesHits, hf]
  rfl

theorem firstIdOf {α : Type} (l : List α) (f : α → Bool) (g : α → String) :
    (match (l.filter f).take 1 with
      | [] => (Except.ok none : Except String (Option String))
      | p :: _ => Except.ok (some (g p))) =
    Except.ok ((l.find? f).map g) := by
  rw [find?_eq_head?_filter]
  cases hl : l.filter f with
  | nil => rfl
  | cons a t => rfl

theorem getPageId_eq_find (s : Store) (permalink : String) (token : Option String)
    (h0 : s.err = none) (hp : blankStr permalink = false) :
    getPageIdByPermalink s permalink token =
      Except.ok ((s.pages.find? (fun p => p.permalink == permalink)).map (fun p => p.id)) := by
  have hcong : ∀ p : Page,
      matchesPageFilter (idLookupPagesQuery permalink).filter p = (p.permalink == permalink) := by
    intro p
    simp [matchesPageFilter, idLookupPagesQuery]
  have hread : s.readPages (idLookupPagesQuery permalink) =
      Except.ok (evalPagesQuery (idLookupPagesQuery permalink) s.pages) := by
    simp [Store.readPages, h0]
  unfold getPageIdByPermalink
  rw [hp, hread]
  rw [← find?_congr_fun _ _ s.pages hcong]
  rw [find?_eq_head?_filter]
  simp only [Bool.false_eq_true, if_false, evalPagesQuery, pagesHits, idLookupPagesQuery]
  cases hl : List.filter
      (fun p => matchesPageFilter { permalink_eq := some permalink, status_eq := none } p)
      s.pages with
  | nil => rfl
  | cons a t => rfl

theorem getPostId_eq_find (s : Store) (slug : String) (token : Option String)
    (h0 : s.err = none) (hs : blankStr slug = false) :
    getPostIdBySlug s slug token =
      Except.ok ((s.posts.find? (fun p => p.slug == slug)).map (fun p => p.id)) := by
  have hcong : ∀ p : Post,
      matchesPostFilter (idLookupPostsQuery slug).filter p = (p.slug == slug) := by
    intro p
    simp [matchesPostFilter, idLookupPostsQuery]
  have hread : s.readPosts (idLookupPostsQuery slug) =
      Except.ok (evalPostsQuery (idLookupPostsQuery slug) s.posts) := by
    simp [Store.readPosts, h0]
  unfold getPostIdBySlug
  rw [hs, hread]
  rw [← find?_congr_fun _ _ s.posts hcong]
  rw [find?_eq_head?_filter]
  simp only [Bool.false_eq_true, if_false, evalPostsQuery, postsSorted, postsHits,
    idLookupPostsQuery, List.drop_zero]
  cases hl : List.filter
      (fun p => matchesPostFilter { slug_eq := some slug, slug_neq := none, status_eq := none } p)
      s.posts with
  | nil => rfl
  | cons a t => rfl

/-- C1: for a permalink with no published page in the store, a
`fetchPageData` call with no token and preview unset sends a query whose
filter demands `status = 'published'` on top of exact permalink equality
and whose limit is 1, so zero rows match and the try-body throws the
not-found error (surfaced by the catch block as the generic failure);
when preview and a token are both present the publish-state clause is
omitted from the filter. -/
theorem c1_unpublished_permalink_notfound (s : Store) (permalink : String) (postPage : Nat)
    (h0 : s.err = none)
    (h : ∀ p ∈ s.pages, ¬(p.permalink = permalink ∧ p.status = publishedStr)) :
    (pagesQueryOf permalink none none).filter = ⟨some permalink, some publishedStr⟩ ∧
    (pagesQueryOf permalink none none).limit = 1 ∧
    fetchPageDataTry s permalink postPage none none = Except.error pageNotFoundMsg ∧
    fetchPageData s permalink postPage none none = Except.error failedFetchPageMsg ∧
    (∀ tok : String, ¬ tok = "" →
      (pagesQueryOf permalink (some tok) (some true)).filter = ⟨some permalink, none⟩) := by
  have hfail : ∀ p ∈ s.pages,
      matchesPageFilter (pagesQueryOf permalink none none).filter p = false := by
    intro p hp
    cases hm : matchesPageFilter (pagesQueryOf permalink none none).filter p
    · rfl
    · exact absurd ((matchesPageFilter_both_iff permalink publishedStr p).mp hm) (h p hp)
  have htry := fetchPageDataTry_notfound s permalink postPage none none h0 hfail
  refine ⟨rfl, rfl, htry, ?_, ?_⟩
  · simp [fetchPageData, htry]
  · intro tok htok
    have hbeq : (tok == "") = false := by
      cases he : tok == ""
      · rfl
      · exact absurd (eq_of_beq he) htok
    simp [pagesQueryOf, truthy, truthyB, hbeq]

/-- Witness for C1 at a store holding only a draft page under `/a`. -/
theorem c1_witness :
    fetchPageData storeC1 permalinkA 1 none none = Except.error failedFetchPageMsg :=
  (c1_unpublished_permalink_notfound storeC1 permalinkA 1 rfl (by decide)).2.2.2.1

/-- C9: a zero-row result makes `fetchPageData`'s try-body throw
`'Page not found'`, which its own catch block replaces by the same
generic `'Failed to fetch page data'` it uses for store failures, so the
caller receives identical values for a not-found outcome and for a
store-communication failure. -/
theorem c9_notfound_indistinguishable (s1 s2 : Store) (permalink : String) (pg : Nat)
    (token : Option String) (preview : Option Bool) (e : String)
    (h1 : s1.err = none)
    (h2 : ∀ p ∈ s1.pages, matchesPageFilter (pagesQueryOf permalink token preview).filter p = false)
    (h3 : s2.err = some e) :
    fetchPageDataTry s1 permalink pg token preview = Except.error pageNotFoundMsg ∧
    fetchPageData s1 permalink pg token preview = Except.error failedFetchPageMsg ∧
    fetchPageData s2 permalink pg token preview = Except.error failedFetchPageMsg ∧
    fetchPageData s1 permalink pg token preview = fetchPageData s2 permalink pg token preview := by
  have htry := fetchPageDataTry_notfound s1 permalink pg token preview h1 h2
  have ha : fetchPageData s1 permalink pg token preview = Except.error failedFetchPageMsg := by
    simp [fetchPageData, htry]
  have hb : fetchPageData s2 permalink pg token preview = Except.error failedFetchPageMsg := by
    simp [fetchPageData, fetchPageDataTry, Store.readPages, h3]
  exact ⟨htry, ha, hb, ha.trans hb.symm⟩

/-- Witness for C9: the draft-only store and the unreachable store
produce the same caller-visible error. -/
theorem c9_witness :
    fetchPageData storeC1 permalinkA 1 none none = fetchPageData downStore permalinkA 1 none none :=
  (c9_notfound_indistinguishable storeC1 downStore permalinkA 1 none none
    ("ECONNREFUSED") rfl (by decide) rfl).2.2.2

/-- C3: the enricher attaches a posts list only to blocks tagged
`block_posts` whose item is an object with `collection = 'posts'`; the
secondary query it issues asks for published posts only, sorted by
`published_at` descending, with the block's configured limit (default 6)
and the supplied page number; every other block is returned completely
unchanged. -/
theorem c3_block_enricher (s : Store) (pg : Nat) (b : PageBlock) (h0 : s.err = none) :
    (isPostsBlock b = false → enrichBlock s pg b = Except.ok b) ∧
    (∀ o : BlockObj, b.collection = blockPostsStr → b.item = some (BlockItem.obj o) →
      o.collection = some postsStr →
      enrichBlock s pg b = Except.ok { b with item := some (BlockItem.obj
        { o with posts := some (evalPostsQuery (blockPostsQuery (o.limit.getD 6) pg) s.posts) }) } ∧
      (blockPostsQuery (o.limit.getD 6) pg).filter = ⟨none, none, some publishedStr⟩ ∧
      (blockPostsQuery (o.limit.getD 6) pg).sortByPublishedAtDesc = true ∧
      (blockPostsQuery (o.limit.getD 6) pg).limit = some (o.limit.getD 6) ∧
      (blockPostsQuery (o.limit.getD 6) pg).page = pg ∧
      List.Pairwise (fun a c => c.published_at ≤ a.published_at)
        (evalPostsQuery (blockPostsQuery (o.limit.getD 6) pg) s.posts) ∧
      (∀ p ∈ evalPostsQuery (blockPostsQuery (o.limit.getD 6) pg) s.posts,
        p.status = publishedStr)) := by
  constructor
  · intro hf
    unfold enrichBlock
    cases hb : b.item with
    | none => rfl
    | some i =>
      cases i with
      | strRef r => rfl
      | obj o =>
        have hg : (b.collection == blockPostsStr && o.collection == some postsStr) = false := by
          unfold isPostsBlock at hf
          rw [hb] at hf
          exact hf
        simp [hg]
  · intro o hcol hitem hocol
    refine ⟨?_, rfl, rfl, rfl, rfl, sorted_evalPostsQuery _ _ rfl, ?_⟩
    · unfold enrichBlock
      rw [hitem]
      simp [hcol, hocol, Store.readPosts, h0]
    · intro p hp
      have hm := (mem_evalPostsQuery _ _ _ hp).2
      simp [matchesPostFilter, blockPostsQuery] at hm
      exact hm

/-- Witness for C3: on a concrete store, a hero block passes through
unchanged and a posts block with limit 1 gets exactly the newest
published post attached. -/
theorem c3_witness :
    enrichBlock storeC3 1 blockOther3 = Except.ok blockOther3 ∧
    enrichBlock storeC3 1 block3 = Except.ok { block3 with item := some (BlockItem.obj
      { blockObj3 with posts := some [post3a] }) } := by
  constructor
  · exact (c3_block_enricher storeC3 1 blockOther3 rfl).1 (by decide)
  · have h := ((c3_block_enricher storeC3 1 block3 rfl).2 blockObj3 rfl rfl rfl).1
    rw [h]
    rfl

/-- C4: `fetchPostBySlug` returns `null` as a value (not a thrown
failure) when no post matches its primary filter; the related list it
returns always has at most 2 entries, all published and with a slug
different from the queried one; and on a store with one published post
of slug `abc` plus three other published posts it returns that post and
exactly 2 related posts. -/
theorem c4_fetch_post_by_slug (s : Store) (slug : String) (draft : Option Bool)
    (token : Option String) (h0 : s.err = none) :
    (∃ firstPost related,
      fetchPostBySlug s slug draft token = Except.ok (firstPost, related) ∧
      related.length ≤ 2 ∧
      (∀ p ∈ related, ¬ p.slug = slug ∧ p.status = publishedStr) ∧
      ((∀ q ∈ s.posts, matchesPostFilter (postBySlugFilter slug draft token) q = false) →
        firstPost = none)) ∧
    fetchPostBySlug storeC4 abcSlug none none = Except.ok (some postAbc, [postB4, postC4v]) := by
  constructor
  · refine ⟨(evalPostsQuery (postBySlugQuery slug draft token) s.posts).head?,
      evalPostsQuery (relatedPostsQuery slug) s.posts, ?_, ?_, ?_, ?_⟩
    · simp [fetchPostBySlug, Store.readPosts, h0]
    · exact length_evalPostsQuery_le _ _ 2 rfl
    · intro p hp
      have hm := (mem_evalPostsQuery _ _ _ hp).2
      simp [matchesPostFilter, relatedPostsQuery] at hm
      exact hm
    · intro hnone
      simp [evalPostsQuery, postsSorted, postsHits, postBySlugQuery]
      exact hnone
  · rfl

/-- Witness for C4 at the four-post store. -/
theorem c4_witness :
    fetchPostBySlug storeC4 abcSlug none none = Except.ok (some postAbc, [postB4, postC4v]) :=
  (c4_fetch_post_by_slug storeC4 abcSlug none none rfl).2

/-- C5: `fetchPageDataById` fails with the InvalidArgument error for a
blank id, or for a missing or blank version, and `fetchPostByIdAndVersion`
does the same for its id, version and slug; the failure is independent of
the store (the conclusion holds for every store, including a failing
one), i.e. it happens before any store request. -/
theorem c5_argument_validation (s : Store) (id slug vs : String)
    (version : Option String) (token : Option String) :
    (jsTrim id = "" → fetchPageDataById s id version token = Except.error invalidIdMsg) ∧
    (¬ jsTrim id = "" → (version = none ∨ ∃ x, version = some x ∧ jsTrim x = "") →
      fetchPageDataById s id version token = Except.error invalidVersionMsg) ∧
    (jsTrim id = "" →
      fetchPostByIdAndVersion s id vs slug token = Except.error invalidIdMsg) ∧
    (¬ jsTrim id = "" → jsTrim vs = "" →
      fetchPostByIdAndVersion s id vs slug token = Except.error invalidVersionMsg) ∧
    (¬ jsTrim id = "" → ¬ jsTrim vs = "" → jsTrim slug = "" →
      fetchPostByIdAndVersion s id vs slug token = Except.error invalidSlugMsg) := by
  refine ⟨?_, ?_, ?_, ?_, ?_⟩
  · intro h
    simp [fetchPageDataById, blankStr_of_trim id h]
  · intro h1 h2
    simp [fetchPageDataById, blankStr_eq_false_of id h1, blankOptStr_of version h2]
  · intro h
    simp [fetchPostByIdAndVersion, blankStr_of_trim id h]
  · intro h1 h2
    simp [fetchPostByIdAndVersion, blankStr_eq_false_of id h1, blankStr_of_trim vs h2]
  · intro h1 h2 h3
    simp [fetchPostByIdAndVersion, blankStr_eq_false_of id h1, blankStr_eq_false_of vs h2,
      blankStr_of_trim slug h3]

/-- Witness for C5: blank-argument calls against the empty store (and the
same conclusion would hold for any store). -/
theorem c5_witness :
    fetchPageDataById emptyStore strEmpty (some strV1) none = Except.error invalidIdMsg ∧
    fetchPageDataById emptyStore strId1 (some strEmpty) none = Except.error invalidVersionMsg ∧
    fetchPostByIdAndVersion emptyStore strId1 strEmpty abcSlug none =
      Except.error invalidVersionMsg := by
  refine ⟨?_, ?_, ?_⟩
  · exact (c5_argument_validation emptyStore strEmpty abcSlug strV1 (some strV1) none).1
      (by decide)
  · exact (c5_argument_validation emptyStore strId1 abcSlug strV1 (some strEmpty) none).2.1
      (by decide) (Or.inr ⟨strEmpty, rfl, by decide⟩)
  · exact (c5_argument_validation emptyStore strId1 abcSlug strEmpty (some strV1) none).2.2.2.1
      (by decide) (by decide)

/-- C6: both page fetchers send the standard `deep` modifier, under which
the store returns the page's blocks sorted by `sort` ascending with
`hide_block = true` rows excluded (so no post-processing happens in the
fetchers: `fetchPageDataById` returns exactly the deep-processed snapshot);
in particular the three-block example resolves to the two visible blocks
ordered `[sort 0, sort 2]`. -/
theorem c6_blocks_sorted_filtered_at_query_time (s : Store) (id version : String)
    (token : Option String) (p : Page)
    (h0 : s.err = none) (hid : ¬ jsTrim id = "") (hv : ¬ jsTrim version = "")
    (hfind : s.findPageVersion id version = some p) :
    (∀ pl tk pv, (pagesQueryOf pl tk pv).deep = some deepStd) ∧
    fetchPageDataById s id (some version) token =
      Except.ok { p with blocks := applyDeep deepStd p.blocks } ∧
    (∀ bs, List.Pairwise (fun a b => a.sort ≤ b.sort) (applyDeep deepStd bs)) ∧
    (∀ bs b, b ∈ applyDeep deepStd bs → ¬ b.hide_block = some true) ∧
    fetchPageData storeC6 permalinkX 1 none none =
      Except.ok { page6 with blocks := [block6c, block6a] } := by
  refine ⟨fun pl tk pv => rfl, ?_, sorted_applyDeep_std, not_hidden_applyDeep_std, ?_⟩
  · simp [fetchPageDataById, blankStr_eq_false_of id hid, blankOptStr_some_eq_false version hv,
      Store.readPageVersion, h0, hfind]
  · rfl

/-- Witness for C6: the versioned fetch on the concrete snapshot returns
the deep-processed blocks `[sort 0, sort 2]`. -/
theorem c6_witness :
    fetchPageDataById storeC6 pgSixId (some draftvStr) none =
      Except.ok { page6 with blocks := [block6c, block6a] } := by
  have h := (c6_blocks_sorted_filtered_at_query_time storeC6 pgSixId draftvStr none page6
    rfl (by decide) (by decide) rfl).2.1
  rw [h]
  rfl

/-- C8: when the store throws (any request error), `fetchTotalPostCount`
returns 0 and the two id-lookup helpers return `null`, none of them
re-surfacing the store error; moreover for valid inputs the id-lookup
helpers return a normal value on every store whatsoever. -/
theorem c8_degrade_on_store_failure (s : Store) (e permalink slug : String)
    (token : Option String) (he : s.err = some e)
    (hp : ¬ jsTrim permalink = "") (hsl : ¬ jsTrim slug = "") :
    fetchTotalPostCount s = 0 ∧
    getPageIdByPermalink s permalink token = Except.ok none ∧
    getPostIdBySlug s slug token = Except.ok none ∧
    (∀ s2 : Store, ∃ r, getPageIdByPermalink s2 permalink token = Except.ok r) ∧
    (∀ s2 : Store, ∃ r, getPostIdBySlug s2 slug token = Except.ok r) := by
  have hpb := blankStr_eq_false_of permalink hp
  have hsb := blankStr_eq_false_of slug hsl
  refine ⟨?_, ?_, ?_, ?_, ?_⟩
  · simp [fetchTotalPostCount, Store.aggregateCountPosts, he]
  · simp [getPageIdByPermalink, hpb, Store.readPages, he]
  · simp [getPostIdBySlug, hsb, Store.readPosts, he]
  · intro s2
    cases hr : s2.readPages (idLookupPagesQuery permalink) with
    | error err2 => exact ⟨none, by simp [getPageIdByPermalink, hpb, hr]⟩
    | ok l =>
      cases l with
      | nil => exact ⟨none, by simp [getPageIdByPermalink, hpb, hr]⟩
      | cons a t => exact ⟨some a.id, by simp [getPageIdByPermalink, hpb, hr]⟩
  · intro s2
    cases hr : s2.readPosts (idLookupPostsQuery slug) with
    | error err2 => exact ⟨none, by simp [getPostIdBySlug, hsb, hr]⟩
    | ok l =>
      cases l with
      | nil => exact ⟨none, by simp [getPostIdBySlug, hsb, hr]⟩
      | cons a t => exact ⟨some a.id, by simp [getPostIdBySlug, hsb, hr]⟩

/-- Witness for C8 at the unreachable store. -/
theorem c8_witness :
    fetchTotalPostCount downStore = 0 ∧
    getPageIdByPermalink downStore permalinkA none = Except.ok none ∧
    getPostIdBySlug downStore abcSlug none = Except.ok none := by
  have h := c8_degrade_on_store_failure downStore ("ECONNREFUSED") permalinkA abcSlug none
    rfl (by decide) (by decide)
  exact ⟨h.1, h.2.1, h.2.2.1⟩

/-- C10: the id-lookup queries filter only on exact key equality with no
publish-state clause and `limit 1`, so each helper returns the id of the
first store entity with that key, whatever its status and whatever token
is supplied. -/
theorem c10_id_lookup_ignores_status (s : Store) (permalink slug : String)
    (token : Option String) (h0 : s.err = none)
    (hp : ¬ jsTrim permalink = "") (hsl : ¬ jsTrim slug = "") :
    (idLookupPagesQuery permalink).filter = ⟨some permalink, none⟩ ∧
    (idLookupPagesQuery permalink).limit = 1 ∧
    (idLookupPostsQuery slug).filter = ⟨some slug, none, none⟩ ∧
    (idLookupPostsQuery slug).limit = some 1 ∧
    getPageIdByPermalink s permalink token =
      Except.ok ((s.pages.find? (fun p => p.permalink == permalink)).map (fun p => p.id)) ∧
    getPostIdBySlug s slug token =
      Except.ok ((s.posts.find? (fun p => p.slug == slug)).map (fun p => p.id)) :=
  ⟨rfl, rfl, rfl, rfl,
    getPageId_eq_find s permalink token h0 (blankStr_eq_false_of permalink hp),
    getPostId_eq_find s slug token h0 (blankStr_eq_false_of slug hsl)⟩

/-- Witness for C10 at a store whose only page and only post are drafts:
their ids are returned with no token supplied. -/
theorem c10_witness :
    getPageIdByPermalink storeC10 permalinkHidden none = Except.ok (some ("pgid10")) ∧
    getPostIdBySlug storeC10 slug10 none = Except.ok (some ("poid10")) := by
  have h := c10_id_lookup_ignores_status storeC10 permalinkHidden slug10 none
    rfl (by decide) (by decide)
  exact ⟨h.2.2.2.2.1.trans (by rfl), h.2.2.2.2.2.trans (by rfl)⟩

theorem truthy_iff (t : Option String) : truthy t = true ↔ ∃ x, t = some x ∧ ¬ x = "" := by
  cases t with
  | none => simp [truthy]
  | some a => simp [truthy]

/-- C2 counterexample: with `version = 'main'`, no token and no preview,
the route handler's draft boolean is `true`, whereas the claim requires
`false` there (the code has no exclusion for the `'main'` sentinel in the
draft computation). -/
theorem c2_counterexample : isDraft none (some mainStr) none = true := by decide

/-- C2 amended: the derived draft boolean is true exactly when preview is
`'true'` with a token present, or any version other than `'published'`
(including `'main'`) is present, or a token alone is present; in
particular `version = 'main'` with no token and no preview yields
`draft = true`. -/
theorem c2_amended_draft_flag :
    (∀ preview version token : Option String,
      isDraft preview version token = true ↔
        ((preview = some trueStr ∧ ∃ x, token = some x ∧ ¬ x = "") ∨
         (∃ x, version = some x ∧ ¬ x = "" ∧ ¬ x = publishedStr) ∨
         (∃ x, token = some x ∧ ¬ x = ""))) ∧
    isDraft none (some mainStr) none = true := by
  constructor
  · intro preview version token
    simp only [isDraft, Bool.or_eq_true, Bool.and_eq_true, beq_iff_eq, truthy_iff,
      Bool.not_eq_true', beq_eq_false_iff_ne, ne_eq]
    constructor
    · rintro ((⟨hp, hx⟩ | ⟨⟨x, hx, hxe⟩, hne⟩) | h)
      · exact Or.inl ⟨hp, hx⟩
      · exact Or.inr (Or.inl ⟨x, hx, hxe, fun hxp => hne (hx.trans (by rw [hxp]))⟩)
      · exact Or.inr (Or.inr h)
    · rintro (⟨hp, hx⟩ | ⟨x, hx, hxe, hxp⟩ | h)
      · exact Or.inl (Or.inl ⟨hp, hx⟩)
      · exact Or.inl (Or.inr ⟨⟨x, hx, hxe⟩, fun hv => hxp (Option.some_inj.mp (hx.symm.trans hv))⟩)
      · exact Or.inr h
  · decide

/-- C7 counterexample: on a store holding one draft post, a blog-route
request with `version = 'main'` (no token, no preview) renders the draft
post while the same request with no version at all renders the 404
outcome, so resolution is not identical. -/
theorem c7_counterexample :
    ¬ (BlogPostPage storeC7 slugS7 none (some mainStr) none none =
       BlogPostPage storeC7 slugS7 none none none none) := by decide

/-- C7 amended: the catch-all page route treats `version = 'main'`
identically to no version at all; the blog-post route also maps `'main'`
to an absent version and takes the non-versioned path (no version is sent
upstream: the request reduces to `fetchPostBySlug`), but its derived
draft flag is forced to `true` by `version = 'main'`, which can change
the publish-state filtering when no token is present. -/
theorem c7_main_version_mapping :
    (∀ (s : Store) (segs : List String) (idQ previewQ tokenQ : Option String),
      PageHandler s segs idQ (some mainStr) previewQ tokenQ =
      PageHandler s segs idQ none previewQ tokenQ) ∧
    (∀ (s : Store) (slug : String) (id preview token : Option String),
      BlogPostPage s slug id (some mainStr) preview token = blogPostViaSlugDraft s slug token) := by
  constructor
  · intro s segs idQ previewQ tokenQ
    rfl
  · intro s slug id preview token
    have hd : isDraft preview (some mainStr) token = true := by
      simp [isDraft, truthy, mainStr, publishedStr]
    simp only [BlogPostPage, blogPostViaSlugDraft, hd, fixedVersionOf, truthy, blogFinish,
      beq_self_eq_true, if_true, Bool.false_and, Bool.and_false, Bool.false_eq_true, if_false]
    cases hres : fetchPostBySlug s slug (some true) token with
    | error e => simp [hres]
    | ok pr =>
      cases pr with
      | mk fst snd =>
        cases fst with
        | none => simp [hres]
        | some p => simp [hres]

/-- Witness for C2's amended statement: a token alone makes the draft
flag true. -/
theorem c2_witness : isDraft none none (some strV1) = true :=
  (c2_amended_draft_flag.1 none none (some strV1)).mpr
    (Or.inr (Or.inr ⟨strV1, rfl, by decide⟩))

/-- Witness for C7's amended statement at the empty store. -/
theorem c7_witness :
    PageHandler emptyStore [] none (some mainStr) none none =
    PageHandler emptyStore [] none none none none :=
  c7_main_version_mapping.1 emptyStore [] none none none
